import Mathlib

/-
Verification development for the WhatsApp message sender (src/app.py).

The program offers two delivery channels:
- a browser-automation channel via pywhatkit (send_pywhatkit_message, the
  whatsapp_web_form submit handler), and
- a cloud API channel via Twilio (send_twilio_message, the twilio_form
  submit handler).

The external libraries (pywhatkit, the Twilio client, streamlit widgets)
are modelled as parameters: the pywhatkit driver calls a dispatch makes are
collected in a list, the Twilio provider is a function from the credentials
and the create-call arguments to an outcome, and a browser run either
completes or raises an exception carrying a message string.
-/

namespace WhatsAppSender

/-- Wall-clock time at minute granularity, as the Python datetime values the
program inspects: day is an absolute day index, hour and minute the fields
read by send_pywhatkit_message. Seconds are dropped since adding whole
minutes never changes them and the code reads only hour and minute. -/
structure DateTime where
  day : Int
  hour : Int
  minute : Int
deriving DecidableEq, Repr

/-- Total minutes represented by a DateTime. -/
def DateTime.toMinutes (dt : DateTime) : Int :=
  dt.day * 1440 + dt.hour * 60 + dt.minute

/-- DateTime from a total-minute count, with hour in 0..23 and minute in
0..59 (Int division and modulo are euclidean, as Python floor division and
modulo are for positive divisors). -/
def DateTime.ofMinutes (t : Int) : DateTime :=
  ⟨t / 1440, t / 60 % 24, t % 60⟩

/-- A DateTime whose hour and minute fields are in range. -/
def DateTime.Valid (dt : DateTime) : Prop :=
  0 ≤ dt.hour ∧ dt.hour < 24 ∧ 0 ≤ dt.minute ∧ dt.minute < 60

instance (dt : DateTime) : Decidable dt.Valid := by
  unfold DateTime.Valid; infer_instance

/-- Embedding of Python datetime addition, now + datetime.timedelta(minutes
:= d), at minute granularity: calendar-correct carry into hours and days. -/
def addMinutes (dt : DateTime) (d : Int) : DateTime :=
  DateTime.ofMinutes (dt.toMinutes + d)

/-- The schedule_time dict built by the whatsapp_web_form handler:
schedule = \x7b'instant': send_option == "Send Instantly", 'delay': delay_minutes\x7d. -/
structure ScheduleTime where
  instant : Bool
  delay : Int
deriving DecidableEq, Repr

/-- Calls made to the pywhatkit automation driver, with the argument lists
the code passes. -/
inductive DriverCall where
  | sendwhatmsgInstantly (phoneNo message : String) (waitTime : Int) (tabClose : Bool)
  | sendwhatmsg (phoneNo message : String) (timeHour timeMin : Int)
deriving DecidableEq, Repr

/-- Embedding of send_pywhatkit_message (src/app.py lines 9-27). It returns
the pywhatkit driver calls it issues. The now parameter is the clock value
read by datetime.datetime.now() at dispatch time; the scheduled time is
now + timedelta(minutes := delay), and only its hour and minute are passed
to kit.sendwhatmsg. -/
def sendPywhatkitMessage (phoneNo message : String) (scheduleTime : ScheduleTime)
    (now : DateTime) : List DriverCall :=
  if scheduleTime.instant then
    [.sendwhatmsgInstantly phoneNo message 15 true]
  else
    let sendTime := addMinutes now scheduleTime.delay
    [.sendwhatmsg phoneNo message sendTime.hour sendTime.minute]

/-- Arguments of the single client.messages.create call in
send_twilio_message. -/
structure CreateArgs where
  body : String
  fromNum : String
  toNum : String
deriving DecidableEq, Repr

/-- Outcome of the Twilio provider call: the message was created with a
given SID, a TwilioRestException with message e.msg was raised, or some
other exception with text str(e) was raised. The catch-all except clause of
the source makes this last constructor cover every remaining fault. -/
inductive TwilioOutcome where
  | created (sid : String)
  | restException (msg : String)
  | otherException (msg : String)
deriving DecidableEq, Repr

/-- The three return sites of send_twilio_message: the success return in the
try body, the return in the except TwilioRestException clause, and the
return in the catch-all except clause. Each carries the message string the
code formats there; sent corresponds to the boolean True, the other two to
False. -/
inductive TwilioSendResult where
  | sent (responseMessage : String)
  | twilioError (responseMessage : String)
  | unexpectedError (responseMessage : String)
deriving DecidableEq, Repr

/-- A provider behaviour: from the credentials the Client was built with and
the create-call arguments to an outcome. -/
def TwilioProvider : Type := String → String → CreateArgs → TwilioOutcome

/-- Embedding of send_twilio_message (src/app.py lines 29-45). The recipient
number is prefixed: formatted_to_num = "whatsapp:" ++ to_num; the sender
number is passed unchanged. The list records the create calls made. -/
def sendTwilioMessage (provider : TwilioProvider)
    (sid token fromNum toNum message : String) : TwilioSendResult × List CreateArgs :=
  let formattedToNum := "whatsapp:" ++ toNum
  let args : CreateArgs := ⟨message, fromNum, formattedToNum⟩
  match provider sid token args with
  | .created msgSid => (.sent ("Message sent successfully! SID: " ++ msgSid), [args])
  | .restException m => (.twilioError ("Twilio Error: " ++ m), [args])
  | .otherException m => (.unexpectedError ("An unexpected error occurred: " ++ m), [args])

/-- Error classification of a dispatch outcome, following section 7 of the
design: validation failures are the warning branches of the two submit
handlers, automationFailure is the except clause of the whatsapp_web_form
handler, providerRejected and unexpected are the two except clauses of
send_twilio_message. -/
inductive ErrorKind where
  | validationError
  | invalidSchedule
  | automationFailure
  | providerRejected
  | unexpected
deriving DecidableEq, Repr

/-- Uniform dispatch outcome: success with a confirmation string, or a
classified failure with a detail string. -/
inductive DispatchResult where
  | success (confirmationId : String)
  | failure (kind : ErrorKind) (detail : String)
deriving DecidableEq, Repr

/-- The two options of the send_option radio widget. -/
inductive SendOption where
  | sendInstantly
  | scheduleForLater
deriving DecidableEq, Repr

/-- Behaviour of one browser-automation run: the pywhatkit call either
completes normally or raises an exception with text str(e). -/
inductive BrowserBehavior where
  | completes
  | raises (msg : String)
deriving DecidableEq, Repr

/-- Embedding of the whatsapp_web_form submit handler (src/app.py lines
75-92). delay_minutes is 0 unless the schedule-for-later option is chosen,
in which case it is the number-input value; the handler validates that both
phone number and message are non-empty (Python truthiness on strings),
builds the schedule dict, and calls send_pywhatkit_message inside a
try/except. The success branch shows a fixed notification and no
confirmation token exists on this channel, so the success result carries
the empty confirmation string; the except branch shows the error text; the
validation branch shows a warning and makes no driver call. -/
def runWhatsappWebForm (phoneNumber message : String) (sendOption : SendOption)
    (userDelay : Int) (now : DateTime) (browser : BrowserBehavior) :
    DispatchResult × List DriverCall :=
  let delayMinutes : Int := if sendOption = .scheduleForLater then userDelay else 0
  if phoneNumber ≠ "" ∧ message ≠ "" then
    let schedule : ScheduleTime := ⟨sendOption = .sendInstantly, delayMinutes⟩
    let calls := sendPywhatkitMessage phoneNumber message schedule now
    match browser with
    | .completes => (.success "", calls)
    | .raises m => (.failure .automationFailure ("❌ Error: " ++ m), calls)
  else
    (.failure .validationError "⚠️ Please fill in both phone number and message.", [])

/-- Embedding of the twilio_form submit handler (src/app.py lines 117-128).
It validates that all five fields are non-empty (all on a list of strings),
then calls send_twilio_message and maps its boolean-and-message result to
the displayed outcome; the kind of a failure is the except clause of
send_twilio_message that produced it. The validation branch shows a warning
and makes no provider call. -/
def runTwilioForm (accountSid authToken fromNumber toNumber apiMessage : String)
    (provider : TwilioProvider) : DispatchResult × List CreateArgs :=
  if accountSid ≠ "" ∧ authToken ≠ "" ∧ fromNumber ≠ "" ∧ toNumber ≠ "" ∧ apiMessage ≠ "" then
    match sendTwilioMessage provider accountSid authToken fromNumber toNumber apiMessage with
    | (.sent m, calls) => (.success m, calls)
    | (.twilioError m, calls) => (.failure .providerRejected m, calls)
    | (.unexpectedError m, calls) => (.failure .unexpected m, calls)
  else
    (.failure .validationError "⚠️ Please fill in all required fields.", [])

/-- The secrets store: the secrets file may be missing entirely (reading
st.secrets then raises FileNotFoundError, caught at src/app.py line 104),
or present as a partial assignment of keys to strings. -/
inductive SecretsStore where
  | missing
  | present (lookup : String → Option String)

/-- Embedding of the credential-defaults loading (src/app.py lines 100-106):
each default is st.secrets.get(key, "") so an absent key falls back to the
empty string, and the except FileNotFoundError branch sets all three
defaults to the empty string. -/
def loadDefaultCredentials : SecretsStore → String × String × String
  | .missing => ("", "", "")
  | .present f =>
    ((f "TWILIO_ACCOUNT_SID").getD "", (f "TWILIO_AUTH_TOKEN").getD "",
      (f "TWILIO_WHATSAPP_NUMBER").getD "")

/-- Schedule resolution errors named by the design document. -/
inductive ScheduleError where
  | invalidScheduleErr
deriving DecidableEq, Repr

/-- Resolution of a schedule as section 4.1 of the design describes it. -/
structure ScheduleResolution where
  sendImmediately : Bool
  hour : Int
  minute : Int
deriving DecidableEq, Repr

/-- Modelled from the spec, section 4.1, for comparison with the code: the
resolve contract is said to reject a delay d ≤ 0 with an InvalidSchedule
error when called directly, and otherwise to return the hour and minute of
now + d minutes. This definition follows those words; the code
(send_pywhatkit_message) has no such defensive check. -/
def resolveSpec (instant : Bool) (d : Int) (now : DateTime) :
    Except ScheduleError ScheduleResolution :=
  if instant then
    .ok ⟨true, 0, 0⟩
  else if d ≤ 0 then
    .error .invalidScheduleErr
  else
    let target := addMinutes now d
    .ok ⟨false, target.hour, target.minute⟩

/-- Round trip: ofMinutes inverts toMinutes on the total-minute count. -/
theorem toMinutes_ofMinutes (t : Int) : (DateTime.ofMinutes t).toMinutes = t := by
  simp only [DateTime.ofMinutes, DateTime.toMinutes]
  omega

/-- The hour and minute produced by ofMinutes are always in range. -/
theorem ofMinutes_valid (t : Int) : (DateTime.ofMinutes t).Valid := by
  simp only [DateTime.ofMinutes, DateTime.Valid]
  omega

/-- Claim C1: if the recipient number or the message body is empty, and, on
the Twilio form, if any of the credential fields (account SID, auth token,
sender number) or the recipient or the message is empty, the dispatch
returns a validationError failure and the list of channel calls is empty:
no channel send operation is invoked. -/
theorem validation_short_circuits (ph msg sid token fromNum toNum apiMsg : String)
    (opt : SendOption) (userDelay : Int) (now : DateTime) (browser : BrowserBehavior)
    (provider : TwilioProvider) :
    (ph = "" ∨ msg = "" →
      runWhatsappWebForm ph msg opt userDelay now browser =
        (.failure .validationError "⚠️ Please fill in both phone number and message.", [])) ∧
    (sid = "" ∨ token = "" ∨ fromNum = "" ∨ toNum = "" ∨ apiMsg = "" →
      runTwilioForm sid token fromNum toNum apiMsg provider =
        (.failure .validationError "⚠️ Please fill in all required fields.", [])) := by
  constructor
  · intro h
    unfold runWhatsappWebForm
    rw [if_neg]
    rcases h with h | h <;> simp [h]
  · intro h
    unfold runTwilioForm
    rw [if_neg]
    rcases h with h | h | h | h | h <;> simp [h]

/-- Witness for C1: concrete validation failures on each form, each with an
empty required field, short-circuit with zero channel calls. -/
theorem validation_short_circuits_witness :
    runWhatsappWebForm "" "hello" .sendInstantly 0 ⟨0, 12, 0⟩ .completes =
      (.failure .validationError "⚠️ Please fill in both phone number and message.", []) ∧
    runTwilioForm "AC52" "" "+14155238886" "+15551234567" "hello"
        (fun _ _ _ => .created "SM1") =
      (.failure .validationError "⚠️ Please fill in all required fields.", []) :=
  ⟨(validation_short_circuits "" "hello" "AC52" "" "+14155238886" "+15551234567" "hello"
      .sendInstantly 0 ⟨0, 12, 0⟩ .completes (fun _ _ _ => .created "SM1")).1 (Or.inl rfl),
   (validation_short_circuits "" "hello" "AC52" "" "+14155238886" "+15551234567" "hello"
      .sendInstantly 0 ⟨0, 12, 0⟩ .completes (fun _ _ _ => .created "SM1")).2
      (Or.inr (Or.inl rfl))⟩

/-- Claim C2: for every delay d in 1..60 and every valid wall-clock time now,
the delayed schedule resolves to a target time whose total-minute count is
exactly that of now plus d, with in-range hour and minute fields (so the
addition is calendar-correct, rolling over hour and day boundaries), and
the driver is passed exactly that target hour and minute, computed from the
dispatch-time clock value. -/
theorem delayed_schedule_is_calendar_addition (ph m : String) (d : Int) (now : DateTime)
    (_hd1 : 1 ≤ d) (_hd2 : d ≤ 60) (_hnow : now.Valid) :
    ∃ target : DateTime, target.Valid ∧
      target.toMinutes = now.toMinutes + d ∧
      sendPywhatkitMessage ph m ⟨false, d⟩ now =
        [.sendwhatmsg ph m target.hour target.minute] := by
  exact ⟨addMinutes now d, ofMinutes_valid _, toMinutes_ofMinutes _, rfl⟩

/-- Witness for C2 at the rollover example: now = 23:58 of day 0, d = 5; the
target is 00:03 of the next day, and those are the hour and minute handed
to the driver. -/
theorem delayed_schedule_witness :
    (∃ target : DateTime, target.Valid ∧
      target.toMinutes = (DateTime.mk 0 23 58).toMinutes + 5 ∧
      sendPywhatkitMessage "+15551234567" "hi" ⟨false, 5⟩ ⟨0, 23, 58⟩ =
        [.sendwhatmsg "+15551234567" "hi" target.hour target.minute]) ∧
    addMinutes ⟨0, 23, 58⟩ 5 = ⟨1, 0, 3⟩ :=
  ⟨delayed_schedule_is_calendar_addition "+15551234567" "hi" 5 ⟨0, 23, 58⟩
      (by decide) (by decide) (by decide),
   by decide⟩

/-- Claim C3: for every recipient number, the Twilio channel submits to the
address formed by prepending the fixed transport prefix whatsapp: to the
raw recipient number, with the message as body and the sender number passed
unchanged, in exactly one create call. -/
theorem twilio_recipient_prefixed (provider : TwilioProvider)
    (sid token fromNum toNum message : String) :
    (sendTwilioMessage provider sid token fromNum toNum message).2 =
      [⟨message, fromNum, "whatsapp:" ++ toNum⟩] := by
  cases h : provider sid token ⟨message, fromNum, "whatsapp:" ++ toNum⟩ <;>
    simp [sendTwilioMessage, h]

/-- Counterexample to claim C4 as stated: with a provider double that raises
a TwilioRestException carrying the message Invalid From Number, the
dispatch outcome has kind providerRejected but its detail is the provider
message with the fixed text Twilio Error: prepended, which differs from the
verbatim provider message. -/
theorem twilio_error_detail_not_verbatim :
    (runTwilioForm "AC52" "tok" "+14155238886" "+15551234567" "hello"
        (fun _ _ _ => .restException "Invalid From Number")).1 =
      .failure .providerRejected ("Twilio Error: " ++ "Invalid From Number") ∧
    ("Twilio Error: " ++ "Invalid From Number" : String) ≠ "Invalid From Number" := by
  decide

/-- Claim C4 amended: on every provider-reported failure the outcome is a
failure of kind providerRejected whose detail is the provider message
prefixed with the fixed text Twilio Error: (the provider message is
preserved as the suffix, not verbatim). -/
theorem twilio_error_detail_prefixed (sid token fromNum toNum apiMsg detail : String)
    (provider : TwilioProvider)
    (h1 : sid ≠ "") (h2 : token ≠ "") (h3 : fromNum ≠ "") (h4 : toNum ≠ "") (h5 : apiMsg ≠ "")
    (hp : provider sid token ⟨apiMsg, fromNum, "whatsapp:" ++ toNum⟩ = .restException detail) :
    (runTwilioForm sid token fromNum toNum apiMsg provider).1 =
      .failure .providerRejected ("Twilio Error: " ++ detail) := by
  unfold runTwilioForm
  rw [if_pos ⟨h1, h2, h3, h4, h5⟩]
  simp [sendTwilioMessage, hp]

/-- Witness for the amended C4 at the concrete rejection message. -/
theorem twilio_error_detail_prefixed_witness :
    (runTwilioForm "AC52" "tok" "+14155238886" "+15551234567" "hello"
        (fun _ _ _ => .restException "Invalid From Number")).1 =
      .failure .providerRejected ("Twilio Error: " ++ "Invalid From Number") :=
  twilio_error_detail_prefixed "AC52" "tok" "+14155238886" "+15551234567" "hello"
    "Invalid From Number" (fun _ _ _ => .restException "Invalid From Number")
    (by decide) (by decide) (by decide) (by decide) (by decide) rfl

/-- Counterexample to claim C5 as stated: with a provider double that
succeeds with SID ABC123, the dispatch outcome is a success whose
confirmation string is the formatted sentence containing the SID, which is
not the bare provider identifier ABC123. -/
theorem twilio_success_token_not_bare_sid :
    (runTwilioForm "AC52" "tok" "+14155238886" "+15551234567" "hello"
        (fun _ _ _ => .created "ABC123")).1 =
      .success ("Message sent successfully! SID: " ++ "ABC123") ∧
    DispatchResult.success ("Message sent successfully! SID: " ++ "ABC123") ≠
      DispatchResult.success "ABC123" := by
  decide

/-- Claim C5 amended: on every successful provider call the outcome is a
success whose confirmation string is the fixed sentence Message sent
successfully! SID: followed by the provider message identifier, rather
than the bare identifier. -/
theorem twilio_success_token_format (sid token fromNum toNum apiMsg msgSid : String)
    (provider : TwilioProvider)
    (h1 : sid ≠ "") (h2 : token ≠ "") (h3 : fromNum ≠ "") (h4 : toNum ≠ "") (h5 : apiMsg ≠ "")
    (hp : provider sid token ⟨apiMsg, fromNum, "whatsapp:" ++ toNum⟩ = .created msgSid) :
    (runTwilioForm sid token fromNum toNum apiMsg provider).1 =
      .success ("Message sent successfully! SID: " ++ msgSid) := by
  unfold runTwilioForm
  rw [if_pos ⟨h1, h2, h3, h4, h5⟩]
  simp [sendTwilioMessage, hp]

/-- Witness for the amended C5 with the provider double succeeding with SID
ABC123. -/
theorem twilio_success_token_format_witness :
    (runTwilioForm "AC52" "tok" "+14155238886" "+15551234567" "hello"
        (fun _ _ _ => .created "ABC123")).1 =
      .success ("Message sent successfully! SID: " ++ "ABC123") :=
  twilio_success_token_format "AC52" "tok" "+14155238886" "+15551234567" "hello" "ABC123"
    (fun _ _ _ => .created "ABC123")
    (by decide) (by decide) (by decide) (by decide) (by decide) rfl

/-- Claim C6: every fault a channel raises is converted to a typed failure
before dispatch returns. A TwilioRestException becomes a providerRejected
failure, any other exception on the Twilio channel becomes an unexpected
failure carrying a diagnostic string, and any exception raised by the
browser automation becomes an automationFailure failure carrying the
exception text; in each case a DispatchResult value is returned, never a
re-raised exception. -/
theorem no_fault_escapes_dispatch (sid token fromNum toNum apiMsg ph msg : String)
    (opt : SendOption) (userDelay : Int) (now : DateTime) (provider : TwilioProvider)
    (h1 : sid ≠ "") (h2 : token ≠ "") (h3 : fromNum ≠ "") (h4 : toNum ≠ "") (h5 : apiMsg ≠ "")
    (hph : ph ≠ "") (hmsg : msg ≠ "") :
    (∀ m, provider sid token ⟨apiMsg, fromNum, "whatsapp:" ++ toNum⟩ = .restException m →
      (runTwilioForm sid token fromNum toNum apiMsg provider).1 =
        .failure .providerRejected ("Twilio Error: " ++ m)) ∧
    (∀ m, provider sid token ⟨apiMsg, fromNum, "whatsapp:" ++ toNum⟩ = .otherException m →
      (runTwilioForm sid token fromNum toNum apiMsg provider).1 =
        .failure .unexpected ("An unexpected error occurred: " ++ m)) ∧
    (∀ m, (runWhatsappWebForm ph msg opt userDelay now (.raises m)).1 =
      .failure .automationFailure ("❌ Error: " ++ m)) := by
  refine ⟨fun m hp => ?_, fun m hp => ?_, fun m => ?_⟩
  · unfold runTwilioForm
    rw [if_pos ⟨h1, h2, h3, h4, h5⟩]
    simp [sendTwilioMessage, hp]
  · unfold runTwilioForm
    rw [if_pos ⟨h1, h2, h3, h4, h5⟩]
    simp [sendTwilioMessage, hp]
  · simp [runWhatsappWebForm, hph, hmsg]

/-- Witness for C6: an unclassified exception on the Twilio channel and an
exception in the browser automation, both with text boom, are returned as
typed failures. -/
theorem no_fault_escapes_dispatch_witness :
    (runTwilioForm "AC52" "tok" "+14155238886" "+15551234567" "hello"
        (fun _ _ _ => .otherException "boom")).1 =
      .failure .unexpected ("An unexpected error occurred: " ++ "boom") ∧
    (runWhatsappWebForm "+15551234567" "hi" .sendInstantly 0 ⟨0, 12, 0⟩ (.raises "boom")).1 =
      .failure .automationFailure ("❌ Error: " ++ "boom") :=
  ⟨(no_fault_escapes_dispatch "AC52" "tok" "+14155238886" "+15551234567" "hello"
      "+15551234567" "hi" .sendInstantly 0 ⟨0, 12, 0⟩ (fun _ _ _ => .otherException "boom")
      (by decide) (by decide) (by decide) (by decide) (by decide) (by decide)
      (by decide)).2.1 "boom" rfl,
   (no_fault_escapes_dispatch "AC52" "tok" "+14155238886" "+15551234567" "hello"
      "+15551234567" "hi" .sendInstantly 0 ⟨0, 12, 0⟩ (fun _ _ _ => .otherException "boom")
      (by decide) (by decide) (by decide) (by decide) (by decide) (by decide)
      (by decide)).2.2 "boom"⟩

/-- Counterexample to claim C7 as stated: called directly with delay 0 in
delayed mode, send_pywhatkit_message does not reject the request; it
computes the target time now + 0 minutes and issues the scheduling driver
call for that hour and minute, whereas the resolve contract written in the
spec returns the InvalidSchedule error there. -/
theorem delay_zero_not_rejected :
    sendPywhatkitMessage "+15551234567" "hi" ⟨false, 0⟩ ⟨0, 12, 30⟩ =
      [.sendwhatmsg "+15551234567" "hi" 12 30] ∧
    resolveSpec false 0 ⟨0, 12, 30⟩ = .error .invalidScheduleErr :=
  ⟨rfl, rfl⟩

/-- Claim C7 amended: send_pywhatkit_message performs no range check on the
delay. Called directly with any delay d ≤ 0 in delayed mode it computes the
target time now + d minutes and issues the scheduling driver call with that
target hour and minute, instead of rejecting with an InvalidSchedule
error. -/
theorem no_delay_range_check (ph m : String) (d : Int) (now : DateTime) (_hd : d ≤ 0) :
    sendPywhatkitMessage ph m ⟨false, d⟩ now =
      [.sendwhatmsg ph m (addMinutes now d).hour (addMinutes now d).minute] :=
  rfl

/-- Witness for the amended C7 at delay 0 and time 12:30. -/
theorem no_delay_range_check_witness :
    sendPywhatkitMessage "+15551234567" "hi" ⟨false, 0⟩ ⟨0, 12, 30⟩ =
      [.sendwhatmsg "+15551234567" "hi" (addMinutes ⟨0, 12, 30⟩ 0).hour
        (addMinutes ⟨0, 12, 30⟩ 0).minute] :=
  no_delay_range_check "+15551234567" "hi" 0 ⟨0, 12, 30⟩ (by decide)

/-- Claim C8: every browser-channel dispatch whose automation completes
without raising returns a success whose confirmation string is empty,
never a synthetic token and never a failure. -/
theorem browser_success_empty_token (ph msg : String) (opt : SendOption) (userDelay : Int)
    (now : DateTime) (hph : ph ≠ "") (hmsg : msg ≠ "") :
    (runWhatsappWebForm ph msg opt userDelay now .completes).1 = .success "" := by
  simp [runWhatsappWebForm, hph, hmsg]

/-- Witness for C8 on a concrete delayed browser dispatch that completes. -/
theorem browser_success_empty_token_witness :
    (runWhatsappWebForm "+15551234567" "hi" .scheduleForLater 5 ⟨0, 23, 58⟩ .completes).1 =
      .success "" :=
  browser_success_empty_token "+15551234567" "hi" .scheduleForLater 5 ⟨0, 23, 58⟩
    (by decide) (by decide)

/-- Claim C9: absence of the secrets store is not fatal: when the secrets
file is missing the three default credentials are all the empty string,
and likewise when the store exists but none of the keys are set. -/
theorem missing_secrets_fall_back_empty (f : String → Option String)
    (habs : ∀ k, f k = none) :
    loadDefaultCredentials .missing = ("", "", "") ∧
    loadDefaultCredentials (.present f) = ("", "", "") := by
  exact ⟨rfl, by simp [loadDefaultCredentials, habs]⟩

/-- Witness for C9 with the empty assignment as the present-but-empty
store. -/
theorem missing_secrets_fall_back_empty_witness :
    loadDefaultCredentials .missing = ("", "", "") ∧
    loadDefaultCredentials (.present fun _ => none) = ("", "", "") :=
  missing_secrets_fall_back_empty (fun _ => none) (fun _ => rfl)

/-- Claim C10: under the instant schedule the delay value is never read: the
driver call is the fixed instant send with wait time 15 and tab close, so
for any two delay values and clock values the driver call sequence is
identical, and at the form level any two delay inputs with the instant
option give identical results. -/
theorem instant_ignores_delay (ph msg : String) (d1 d2 : Int) (now1 now2 : DateTime)
    (browser : BrowserBehavior) :
    sendPywhatkitMessage ph msg ⟨true, d1⟩ now1 = [.sendwhatmsgInstantly ph msg 15 true] ∧
    sendPywhatkitMessage ph msg ⟨true, d1⟩ now1 = sendPywhatkitMessage ph msg ⟨true, d2⟩ now2 ∧
    runWhatsappWebForm ph msg .sendInstantly d1 now1 browser =
      runWhatsappWebForm ph msg .sendInstantly d2 now1 browser :=
  ⟨rfl, rfl, rfl⟩

end WhatsAppSender
